import Mathlib

/-!
Shallow embedding of the HealiFy client-side session and assessment
workflow state machine.

Sources embedded:
- `src/Frontend/src/context/AuthContext.jsx` (session store: `login`,
  `logout`, `updateUserProfile`, `isProfileComplete`, initial state and
  the startup `checkExistingSession` effect);
- `src/Frontend/src/components/ProtectedRoute.jsx` (route guard);
- `src/Frontend/src/pages/PredictionForm.jsx` (assessment workflow:
  `diseaseConfigs`, the initialization effect, `handleSymptomChange`,
  `validateForm`, `handleSubmit`, `getRiskLevel`, slider bounds);
- the Profile page (`src/unnamed/part_001`): `getRiskColor`.

JavaScript values are modelled as follows: a possibly-absent number is
`Option Int` (JS truthiness of a number `v` present in the object is
`v ≠ 0`); a JS object used as a string-keyed map is an association list
`List (String × Int)` in insertion order, matching JS object key order
for the spreads used by the source.
-/

namespace HealiFy

/-- A user profile as held in `user.profile`
(AuthContext.jsx / Profile page): `age`, `weight`, `height` may be
absent; `smoking` and `drinking` are booleans (an absent boolean key
reads as falsy, modelled as `false`). -/
structure Profile where
  age : Option Int
  weight : Option Int
  height : Option Int
  smoking : Bool
  drinking : Bool
deriving DecidableEq, Repr

/-- An account as stored in the `user` state variable: an id, an email,
and a possibly-absent nested profile object. -/
structure Account where
  id : Nat
  email : String
  profile : Option Profile
deriving DecidableEq, Repr

/-- The session store state of `AuthProvider` (AuthContext.jsx):
`isAuthenticated`, `user`, `token`, `loading`. -/
structure SessionState where
  isAuthenticated : Bool
  user : Option Account
  token : Option String
  loading : Bool
deriving DecidableEq, Repr

/-- Initial state of `AuthProvider`:
`useState(false)`, `useState(null)`, `useState(null)`, `useState(true)`
(AuthContext.jsx lines 30-33). -/
def initialSession : SessionState :=
  { isAuthenticated := false, user := none, token := none, loading := true }

/-- `checkExistingSession` (AuthContext.jsx lines 36-57): the optional
localStorage branch is commented out in the source, so the effect only
sets `loading` to `false` (also on its catch path). -/
def checkExistingSession (s : SessionState) : SessionState :=
  { s with loading := false }

/-- `login(userData, authToken)` (AuthContext.jsx lines 64-72): stores
the given user and token and unconditionally sets
`isAuthenticated := true`. -/
def login (userData : Account) (authToken : String) (s : SessionState) :
    SessionState :=
  { s with user := some userData, token := some authToken,
           isAuthenticated := true }

/-- `logout()` (AuthContext.jsx lines 77-85): clears user and token and
sets `isAuthenticated := false`. -/
def logout (s : SessionState) : SessionState :=
  { s with user := none, token := none, isAuthenticated := false }

/-- A partial profile passed to `updateUserProfile`: each field is
present (`some`) or absent (`none`) in the update object. -/
structure PartialProfile where
  age : Option Int := none
  weight : Option Int := none
  height : Option Int := none
  smoking : Option Bool := none
  drinking : Option Bool := none
deriving DecidableEq, Repr

/-- The profile object read off `{ ...prev.profile }` when
`prev.profile` is `undefined`: no keys, so every numeric key reads as
absent and every boolean key as falsy. -/
def emptyProfileObj : Profile :=
  { age := none, weight := none, height := none,
    smoking := false, drinking := false }

/-- The spread `{ ...prev.profile, ...updatedProfile }`
(AuthContext.jsx line 94): keys of the update win, missing keys keep the
base value. -/
def mergeProfile (base : Profile) (p : PartialProfile) : Profile :=
  { age := (match p.age with
      | some a => some a | none => base.age),
    weight := (match p.weight with
      | some w => some w | none => base.weight),
    height := (match p.height with
      | some h => some h | none => base.height),
    smoking := p.smoking.getD base.smoking,
    drinking := p.drinking.getD base.drinking }

/-- `updateUserProfile(updatedProfile)` (AuthContext.jsx lines 91-96):
`setUser(prev => ({ ...prev, profile: { ...prev.profile, ...updatedProfile } }))`.
When `prev` is `null` the access `prev.profile` throws a `TypeError`
(spreading `null` itself is legal, reading a property of it is not), so
the state update does not happen; modelled as `Except.error`. When an
account is present, only its `profile` field is rebuilt by the shallow
merge. -/
def updateUserProfile (p : PartialProfile) (s : SessionState) :
    Except String SessionState :=
  match s.user with
  | none => Except.error "TypeError: cannot read profile of null"
  | some acct =>
      Except.ok { s with user := some { acct with
        profile := some (mergeProfile (acct.profile.getD emptyProfileObj) p) } }

/-- JS truthiness of a possibly-absent numeric field: truthy iff the
key is present and its value is nonzero. -/
def truthyNum : Option Int → Bool
  | none => false
  | some v => v != 0

/-- `isProfileComplete()` (AuthContext.jsx lines 103-107):
`if (!user || !user.profile) return false;` then
`age && weight && height` coerced to its boolean reading. -/
def isProfileComplete (s : SessionState) : Bool :=
  match s.user with
  | none => false
  | some u =>
      match u.profile with
      | none => false
      | some p => truthyNum p.age && truthyNum p.weight && truthyNum p.height

/-- Session states reachable from the initial anonymous state through
the store operations: the startup check, `login`, `logout`, and
`updateUserProfile` (whose throwing case leaves the state unchanged, so
only its `ok` result is a transition). -/
inductive Reachable : SessionState → Prop where
  | init : Reachable initialSession
  | startup {s} : Reachable s → Reachable (checkExistingSession s)
  | login {s} (a : Account) (t : String) :
      Reachable s → Reachable (login a t s)
  | logout {s} : Reachable s → Reachable (logout s)
  | update {s s'} (p : PartialProfile) :
      Reachable s → updateUserProfile p s = Except.ok s' → Reachable s'

/-- The three possible renderings of `ProtectedRoute`
(ProtectedRoute.jsx): a loading spinner, a `Navigate` to the sign-in
route carrying the requested pathname in its state, or the protected
children. -/
inductive RouteOutcome where
  | Pending
  | Redirect (dest : String) (rememberedFrom : String)
  | Render
deriving DecidableEq, Repr

/-- `ProtectedRoute` (ProtectedRoute.jsx lines 16-43): spinner while
`loading`; otherwise `Navigate to="/login" state={{from: location.pathname}}`
when not authenticated; otherwise the children. -/
def ProtectedRoute (loading isAuthenticated : Bool) (pathname : String) :
    RouteOutcome :=
  if loading then RouteOutcome.Pending
  else if !isAuthenticated then RouteOutcome.Redirect "/login" pathname
  else RouteOutcome.Render

/-- The per-disease question-key lists of `diseaseConfigs`
(PredictionForm.jsx lines 38-171), projected to the `key` field of each
question record in source order; `title`, `label`, `description`,
`unit`, `icon`, `color` are display-only strings not consumed by the
workflow logic. -/
def diseaseConfigs (diseaseType : String) : Option (List String) :=
  if diseaseType = "diabetes" then
    some ["frequent_urination", "excessive_thirst",
          "unexplained_weight_loss", "fatigue", "blurred_vision",
          "slow_healing"]
  else if diseaseType = "heart_disease" then
    some ["chest_pain", "shortness_breath", "high_blood_pressure",
          "cholesterol_levels", "exercise_tolerance", "family_history"]
  else if diseaseType = "thyroid" then
    some ["weight_changes", "energy_levels", "temperature_sensitivity",
          "hair_skin_changes", "mood_changes", "sleep_patterns"]
  else none

/-- The `currentStep` state variable of `PredictionForm`: the strings
`'form'`, `'loading'`, `'results'`. The spec's phase names map as
`Form = form`, `Submitting = loading`, `Result = results`. -/
inductive Phase where
  | form
  | loading
  | results
deriving DecidableEq, Repr

/-- One risk factor of a prediction response
(`prediction.risk_factors` entries `{ name, impact }`). -/
structure RiskFactor where
  name : String
  impact : Int
deriving DecidableEq, Repr

/-- A prediction response body (`response.data.data`): the fields the
form reads, `prediction_percentage` and `risk_factors`. -/
structure PredictionResult where
  prediction_percentage : Int
  risk_factors : List RiskFactor
deriving DecidableEq, Repr

/-- The local state of `PredictionForm` (PredictionForm.jsx lines
30-33): `currentStep`, `symptoms` (a string-keyed object of numbers),
`prediction`, `loading`. -/
structure AssessmentState where
  currentStep : Phase
  symptoms : List (String × Int)
  prediction : Option PredictionResult
  loading : Bool
deriving DecidableEq, Repr

/-- Outcome of the initialization effect (PredictionForm.jsx lines
178-198): redirect to `/predictions` on an unknown disease type,
redirect to `/profile` on an incomplete profile, or the seeded form
state. -/
inductive InitResult where
  | unknownType
  | profileIncomplete
  | seeded (st : AssessmentState)
deriving DecidableEq, Repr

/-- The mount-time effect of `PredictionForm` (PredictionForm.jsx lines
178-198) together with the component's initial state (`'form'`, `{}`,
`null`, `false`): checks the catalog first, then `isProfileComplete()`,
and otherwise seeds every question key of the disease with 0. -/
def initializeAssessment (diseaseType : String) (profileComplete : Bool) :
    InitResult :=
  match diseaseConfigs diseaseType with
  | none => InitResult.unknownType
  | some qs =>
      if !profileComplete then InitResult.profileIncomplete
      else InitResult.seeded
        { currentStep := Phase.form,
          symptoms := qs.map (fun k => (k, 0)),
          prediction := none,
          loading := false }

/-- The object spread `{ ...prev, [key]: value }` on a string-keyed
object: an existing key keeps its position and receives the new value,
a new key is appended. -/
def setAssoc (xs : List (String × Int)) (key : String) (value : Int) :
    List (String × Int) :=
  if xs.any (fun kv => kv.1 = key) then
    xs.map (fun kv => if kv.1 = key then (key, value) else kv)
  else xs ++ [(key, value)]

/-- Reads a key from a string-keyed object (first occurrence). -/
def getAssoc (xs : List (String × Int)) (key : String) : Option Int :=
  match xs with
  | [] => none
  | kv :: rest => if kv.1 = key then some kv.2 else getAssoc rest key

/-- `handleSymptomChange(key, value)` (PredictionForm.jsx lines
203-208): `setSymptoms(prev => ({ ...prev, [key]: value }))`, with no
key or range validation of its own. -/
def handleSymptomChange (st : AssessmentState) (key : String)
    (value : Int) : AssessmentState :=
  { st with symptoms := setAssoc st.symptoms key value }

/-- The `min={0}` bound passed to every `Slider` by `PredictionForm`
(line 323). -/
def sliderMin : Int := 0

/-- The `max={100}` bound passed to every `Slider` by `PredictionForm`
(line 324). -/
def sliderMax : Int := 100

/-- `totalScore` of `validateForm` (PredictionForm.jsx line 214): the
sum of all symptom values. -/
def sumValues (xs : List (String × Int)) : Int :=
  (xs.map Prod.snd).sum

/-- `validateForm()` (PredictionForm.jsx lines 213-220): false (with an
error toast) iff the total score is zero. -/
def validateForm (st : AssessmentState) : Bool :=
  !(sumValues st.symptoms = 0)

/-- Modelled from the spec: the Remote Service Facade
(`src/Frontend/src/services/apiClient.js` is not present under `src/`).
Per the spec's facade contract, `score` either succeeds with a
`PredictionResult` or fails with a distinguishable error
(`Unauthorized`, `ServiceError`, or a transport/network error), and a
failure reaches the caller as a thrown exception caught by
`handleSubmit`'s catch block. -/
inductive FacadeError where
  | unauthorized
  | serviceError
  | networkError
deriving DecidableEq, Repr

/-- Modelled from the spec: the normalized outcome of one
`predictionsAPI.getPrediction` call. -/
inductive FacadeOutcome where
  | success (r : PredictionResult)
  | failure (e : FacadeError)
deriving DecidableEq, Repr

/-- Observable result of one `handleSubmit` invocation: the component
state afterwards, whether the scoring network call was issued, and how
many error / success toasts were recorded. -/
structure SubmitResult where
  state : AssessmentState
  networkCalled : Bool
  errorToasts : Nat
  successToasts : Nat
deriving DecidableEq, Repr

/-- `handleSubmit` (PredictionForm.jsx lines 225-249), applied to the
current state and the outcome the facade would return for the call. If
`validateForm()` fails, it returns before any state change or network
call (the toast comes from `validateForm`). Otherwise it sets
`loading`/`'loading'`, issues the call, and on success stores the
prediction and moves to `'results'` with a success toast; on a thrown
failure the catch block records one error toast and returns to
`'form'`, leaving `symptoms` untouched; `finally` clears `loading`.
The handler performs no check of `currentStep`. -/
def handleSubmit (st : AssessmentState) (outcome : FacadeOutcome) :
    SubmitResult :=
  if sumValues st.symptoms = 0 then
    { state := st, networkCalled := false,
      errorToasts := 1, successToasts := 0 }
  else
    match outcome with
    | FacadeOutcome.success r =>
        { state := { st with currentStep := Phase.results,
                             prediction := some r, loading := false },
          networkCalled := true, errorToasts := 0, successToasts := 1 }
    | FacadeOutcome.failure _ =>
        { state := { st with currentStep := Phase.form, loading := false },
          networkCalled := true, errorToasts := 1, successToasts := 0 }

/-- The `disabled={loading}` attribute of the submit `Button`
(PredictionForm.jsx lines 353-359). -/
def submitButtonDisabled (st : AssessmentState) : Bool :=
  st.loading

/-- The conditional rendering guard `currentStep === 'form'` around the
form and its submit button (PredictionForm.jsx line 312). -/
def formRendered (st : AssessmentState) : Bool :=
  st.currentStep = Phase.form

/-- One entry of the result screen's risk display: the `level`,
`color`, `bgColor` strings returned by `getRiskLevel`. -/
structure RiskInfo where
  level : String
  color : String
  bgColor : String
deriving DecidableEq, Repr

/-- `getRiskLevel(percentage)` (PredictionForm.jsx lines 266-271). -/
def getRiskLevel (percentage : Int) : RiskInfo :=
  if percentage < 25 then
    { level := "Low", color := "text-green-600", bgColor := "bg-green-100" }
  else if percentage < 50 then
    { level := "Moderate", color := "text-yellow-600",
      bgColor := "bg-yellow-100" }
  else if percentage < 75 then
    { level := "High", color := "text-orange-600",
      bgColor := "bg-orange-100" }
  else
    { level := "Very High", color := "text-red-600",
      bgColor := "bg-red-100" }

/-- `getRiskColor(percentage)` of the Profile page's history table
(src/unnamed/part_001, lines 178-183). -/
def getRiskColor (percentage : Int) : String :=
  if percentage < 25 then "text-green-600 bg-green-100"
  else if percentage < 50 then "text-yellow-600 bg-yellow-100"
  else if percentage < 75 then "text-orange-600 bg-orange-100"
  else "text-red-600 bg-red-100"

/-- The four risk tiers of the spec's classification table. -/
inductive RiskTier where
  | Low
  | Moderate
  | High
  | VeryHigh
deriving DecidableEq, Repr

/-- The spec's classification, written from its words:
`tier(p) = Low if p<25; Moderate if 25<=p<50; High if 50<=p<75;
VeryHigh if p>=75`. -/
def specTier (p : Int) : RiskTier :=
  if p < 25 then RiskTier.Low
  else if 25 ≤ p ∧ p < 50 then RiskTier.Moderate
  else if 50 ≤ p ∧ p < 75 then RiskTier.High
  else RiskTier.VeryHigh

/-- The display name each tier carries on the result screen. -/
def tierName : RiskTier → String
  | RiskTier.Low => "Low"
  | RiskTier.Moderate => "Moderate"
  | RiskTier.High => "High"
  | RiskTier.VeryHigh => "Very High"

/-- Truthiness of a possibly-absent numeric field, spelt out: present
and nonzero. -/
theorem truthyNum_iff (o : Option Int) :
    truthyNum o = true ↔ o ≠ none ∧ o ≠ some 0 := by
  cases o with
  | none => simp [truthyNum]
  | some v => simp [truthyNum]

/-- Helper: a successful `updateUserProfile` leaves `isAuthenticated`
and `token` unchanged, keeps the user present, and could only succeed
because a user was present before. -/
theorem updateUserProfile_ok_fields {p : PartialProfile} {s s' : SessionState}
    (hok : updateUserProfile p s = Except.ok s') :
    s'.isAuthenticated = s.isAuthenticated ∧ s'.token = s.token ∧
    s'.user.isSome = true ∧ s.user.isSome = true := by
  cases hu : s.user with
  | none => simp [updateUserProfile, hu] at hok
  | some acct =>
      simp only [updateUserProfile, hu, Except.ok.injEq] at hok
      subst hok
      simp [hu]

/-- Claim C1: every session state reachable from the initial anonymous
state via the store operations satisfies the invariant that
`isAuthenticated` is `true` if and only if both the token and the user
are present. -/
theorem auth_invariant_reachable (s : SessionState) (h : Reachable s) :
    s.isAuthenticated = true ↔ (s.token.isSome ∧ s.user.isSome) := by
  induction h with
  | init => simp [initialSession]
  | startup _ ih => simpa [checkExistingSession] using ih
  | login a t _ _ => simp [login]
  | logout _ _ => simp [logout]
  | update p _ hok ih =>
      obtain ⟨hA, hT, hU, hUpre⟩ := updateUserProfile_ok_fields hok
      rw [hA, hT, hU]
      simpa [hUpre] using ih

/-- Claim C1 witness: the invariant, instantiated at the state reached
by a single login from the initial state. -/
theorem auth_invariant_reachable_witness :
    (login ⟨1, "user@example.com", none⟩ "tok" initialSession).isAuthenticated
        = true ↔
      ((login ⟨1, "user@example.com", none⟩ "tok" initialSession).token.isSome ∧
       (login ⟨1, "user@example.com", none⟩ "tok" initialSession).user.isSome) :=
  auth_invariant_reachable _ (Reachable.login _ _ Reachable.init)

/-- Claim C2: the route guard yields `Pending` exactly while `loading`
is true, `Redirect "/login"` remembering the requested pathname exactly
when initialization is done and the session is unauthenticated, and
`Render` exactly when initialization is done and the session is
authenticated; while `loading` it neither renders nor redirects. -/
theorem protectedRoute_cases (loading isAuth : Bool) (pathname : String) :
    (loading = true →
      ProtectedRoute loading isAuth pathname = RouteOutcome.Pending) ∧
    (loading = false → isAuth = false →
      ProtectedRoute loading isAuth pathname
        = RouteOutcome.Redirect "/login" pathname) ∧
    (loading = false → isAuth = true →
      ProtectedRoute loading isAuth pathname = RouteOutcome.Render) ∧
    (loading = true →
      ProtectedRoute loading isAuth pathname ≠ RouteOutcome.Render ∧
      ∀ d f, ProtectedRoute loading isAuth pathname ≠ RouteOutcome.Redirect d f) := by
  cases loading <;> cases isAuth <;> simp [ProtectedRoute]

/-- Claim C2 witness: with initialization finished and no
authentication, a request for `/predictions` is redirected to the
sign-in route remembering `/predictions`. -/
theorem protectedRoute_cases_witness :
    ProtectedRoute false false "/predictions"
      = RouteOutcome.Redirect "/login" "/predictions" :=
  (protectedRoute_cases false false "/predictions").2.1 rfl rfl

/-- Claim C3: `isProfileComplete` returns `true` exactly when a user
with a profile is present and the profile's age, weight and height are
each present and nonzero; in every other case (no user, no profile, a
missing field, or a field equal to zero) it returns `false`. -/
theorem isProfileComplete_iff (s : SessionState) :
    isProfileComplete s = true ↔
      ∃ u p, s.user = some u ∧ u.profile = some p ∧
        (p.age ≠ none ∧ p.age ≠ some 0) ∧
        (p.weight ≠ none ∧ p.weight ≠ some 0) ∧
        (p.height ≠ none ∧ p.height ≠ some 0) := by
  cases hu : s.user with
  | none => simp [isProfileComplete, hu]
  | some u =>
      cases hp : u.profile with
      | none => simp [isProfileComplete, hu, hp]
      | some p =>
          simp only [isProfileComplete, hu, hp, Bool.and_eq_true,
            truthyNum_iff, Option.some.injEq]
          constructor
          · rintro ⟨⟨⟨ha1, ha2⟩, hw1, hw2⟩, hh1, hh2⟩
            exact ⟨u, p, rfl, hp, ⟨ha1, ha2⟩, ⟨hw1, hw2⟩, hh1, hh2⟩
          · rintro ⟨u', p', rfl, hp', ⟨ha1, ha2⟩, ⟨hw1, hw2⟩, hh1, hh2⟩
            obtain rfl : p = p' := by simpa using hp.symm.trans hp'
            exact ⟨⟨⟨ha1, ha2⟩, hw1, hw2⟩, hh1, hh2⟩

/-- Claim C9 counterexample: calling `updateUserProfile` on the initial
(logged-out) state, where no account is present, is not a silent no-op:
the access `prev.profile` on `null` fails with a `TypeError`, so the
call does not return the unchanged state. -/
theorem updateUserProfile_noAccount_not_noop :
    updateUserProfile
        { age := some 30, weight := some 70, height := some 175 }
        initialSession
      = Except.error "TypeError: cannot read profile of null" ∧
    updateUserProfile
        { age := some 30, weight := some 70, height := some 175 }
        initialSession
      ≠ Except.ok initialSession := by
  constructor
  · rfl
  · intro h
    simp [updateUserProfile, initialSession] at h

/-- Claim C9 amended: when an account is present, `updateUserProfile`
rebuilds only `account.profile` by a shallow merge, leaving the
account's `id` and `email` and the session's `isAuthenticated`, `token`
and `loading` unchanged; when no account is present it fails with a
`TypeError` (the state update never happens) instead of being a silent
no-op. -/
theorem updateUserProfile_frame (s : SessionState) (pp : PartialProfile) :
    (∀ acct, s.user = some acct →
      ∃ s', updateUserProfile pp s = Except.ok s' ∧
        s'.isAuthenticated = s.isAuthenticated ∧
        s'.token = s.token ∧
        s'.loading = s.loading ∧
        ∃ acct', s'.user = some acct' ∧
          acct'.id = acct.id ∧ acct'.email = acct.email ∧
          acct'.profile
            = some (mergeProfile (acct.profile.getD emptyProfileObj) pp)) ∧
    (s.user = none →
      ∃ e, updateUserProfile pp s = Except.error e) := by
  constructor
  · intro acct hu
    refine ⟨{ s with user := some { acct with
        profile := some (mergeProfile (acct.profile.getD emptyProfileObj) pp) } },
      ?_, rfl, rfl, rfl, ⟨_, rfl, rfl, rfl, rfl⟩⟩
    simp [updateUserProfile, hu]
  · intro hu
    refine ⟨"TypeError: cannot read profile of null", ?_⟩
    simp [updateUserProfile, hu]

/-- Claim C9 amended witness: the frame property instantiated at a
logged-in state whose account has a partially filled profile. -/
theorem updateUserProfile_frame_witness :
    ∃ s', updateUserProfile { weight := some 80 }
        { isAuthenticated := true,
          user := some
            { id := 7, email := "user@example.com",
              profile := some
                { age := some 28, weight := some 70, height := some 175,
                  smoking := false, drinking := true } },
          token := some "tok", loading := false }
      = Except.ok s' ∧
      s'.isAuthenticated = true ∧
      s'.token = some "tok" ∧
      s'.loading = false ∧
      ∃ acct', s'.user = some acct' ∧
        acct'.id = 7 ∧ acct'.email = "user@example.com" ∧
        acct'.profile = some
          { age := some 28, weight := some 80, height := some 175,
            smoking := false, drinking := true } := by
  obtain ⟨s', h1, h2, h3, h4, acct', h5, h6, h7, h8⟩ :=
    (updateUserProfile_frame
      { isAuthenticated := true,
        user := some
          { id := 7, email := "user@example.com",
            profile := some
              { age := some 28, weight := some 70, height := some 175,
                smoking := false, drinking := true } },
        token := some "tok", loading := false }
      { weight := some 80 }).1 _ rfl
  exact ⟨s', h1, h2, h3, h4, acct', h5, h6, h7, by
    rw [h8]; rfl⟩

/-- Claim C4: the initialization effect fails on any disease type
outside the static catalog (`diabetes`, `heart_disease`, `thyroid`),
regardless of profile completeness (so the unknown-type check precedes
the profile check); fails with the profile-incomplete redirect when the
type is known but the profile gate denies; and otherwise seeds the
answers with exactly the catalog's question keys, each mapped to 0, in
the form phase. -/
theorem initializeAssessment_spec (ty : String) (pc : Bool) :
    (diseaseConfigs ty = none ↔
      ¬(ty = "diabetes" ∨ ty = "heart_disease" ∨ ty = "thyroid")) ∧
    (diseaseConfigs ty = none →
      initializeAssessment ty pc = InitResult.unknownType) ∧
    (∀ qs, diseaseConfigs ty = some qs → pc = false →
      initializeAssessment ty pc = InitResult.profileIncomplete) ∧
    (∀ qs, diseaseConfigs ty = some qs → pc = true →
      initializeAssessment ty pc = InitResult.seeded
        { currentStep := Phase.form,
          symptoms := qs.map (fun k => (k, 0)),
          prediction := none, loading := false }) := by
  refine ⟨?_, ?_, ?_, ?_⟩
  · unfold diseaseConfigs
    split_ifs <;> simp_all
  · intro h
    simp [initializeAssessment, h]
  · intro qs hqs hpc
    simp [initializeAssessment, hqs, hpc]
  · intro qs hqs hpc
    simp [initializeAssessment, hqs, hpc]

/-- Claim C4 witness: initializing a diabetes assessment with a
complete profile seeds the six diabetes question keys with 0 in the
form phase; initializing an unknown type with an incomplete profile
reports the unknown type, not the incomplete profile. -/
theorem initializeAssessment_spec_witness :
    initializeAssessment "diabetes" true = InitResult.seeded
      { currentStep := Phase.form,
        symptoms := [("frequent_urination", 0), ("excessive_thirst", 0),
          ("unexplained_weight_loss", 0), ("fatigue", 0),
          ("blurred_vision", 0), ("slow_healing", 0)],
        prediction := none, loading := false } ∧
    initializeAssessment "cancer" false = InitResult.unknownType := by
  constructor
  · exact (initializeAssessment_spec "diabetes" true).2.2.2 _ rfl rfl
  · exact (initializeAssessment_spec "cancer" false).2.1 rfl

/-- Claim C5: in the form phase with every answer zero, `handleSubmit`
is rejected by `validateForm`: no network call is issued, the phase
stays `form`, and the answers are unchanged (in fact the whole state is
returned as it was). -/
theorem submit_allZero_rejected (st : AssessmentState)
    (outcome : FacadeOutcome) (hform : st.currentStep = Phase.form)
    (hzero : ∀ kv ∈ st.symptoms, kv.2 = 0) :
    (handleSubmit st outcome).networkCalled = false ∧
    (handleSubmit st outcome).state.currentStep = Phase.form ∧
    (handleSubmit st outcome).state.symptoms = st.symptoms ∧
    (handleSubmit st outcome).state = st := by
  have hsum : sumValues st.symptoms = 0 := by
    apply List.sum_eq_zero
    intro x hx
    obtain ⟨kv, hkv, rfl⟩ := List.mem_map.mp hx
    exact hzero kv hkv
  refine ?_
  simp [handleSubmit, hsum, hform]

/-- Claim C5 witness: a freshly seeded all-zero diabetes form rejects
submission without a network call and without any state change. -/
theorem submit_allZero_rejected_witness :
    (handleSubmit
        { currentStep := Phase.form,
          symptoms := [("frequent_urination", 0), ("excessive_thirst", 0),
            ("unexplained_weight_loss", 0), ("fatigue", 0),
            ("blurred_vision", 0), ("slow_healing", 0)],
          prediction := none, loading := false }
        (FacadeOutcome.failure FacadeError.networkError)).networkCalled
      = false ∧
    (handleSubmit
        { currentStep := Phase.form,
          symptoms := [("frequent_urination", 0), ("excessive_thirst", 0),
            ("unexplained_weight_loss", 0), ("fatigue", 0),
            ("blurred_vision", 0), ("slow_healing", 0)],
          prediction := none, loading := false }
        (FacadeOutcome.failure FacadeError.networkError)).state.symptoms
      = [("frequent_urination", 0), ("excessive_thirst", 0),
         ("unexplained_weight_loss", 0), ("fatigue", 0),
         ("blurred_vision", 0), ("slow_healing", 0)] := by
  have h := submit_allZero_rejected
    { currentStep := Phase.form,
      symptoms := [("frequent_urination", 0), ("excessive_thirst", 0),
        ("unexplained_weight_loss", 0), ("fatigue", 0),
        ("blurred_vision", 0), ("slow_healing", 0)],
      prediction := none, loading := false }
    (FacadeOutcome.failure FacadeError.networkError) rfl (by decide)
  exact ⟨h.1, h.2.2.1⟩

/-- Claim C6: whenever the scoring call is actually issued (the
all-zero rejection does not apply) and the facade fails — with any of
its failure kinds — `handleSubmit` ends in the `form` phase with the
answers exactly as they were before the call and exactly one error
notification recorded for the attempt. -/
theorem submit_failure_returns_to_form (st : AssessmentState)
    (e : FacadeError) (hnz : sumValues st.symptoms ≠ 0) :
    (handleSubmit st (FacadeOutcome.failure e)).networkCalled = true ∧
    (handleSubmit st (FacadeOutcome.failure e)).state.currentStep
      = Phase.form ∧
    (handleSubmit st (FacadeOutcome.failure e)).state.symptoms
      = st.symptoms ∧
    (handleSubmit st (FacadeOutcome.failure e)).errorToasts = 1 := by
  simp [handleSubmit, hnz]

/-- Claim C6 witness: a diabetes form with one nonzero answer, hit by a
network failure, returns to the form with its answers intact and one
error toast. -/
theorem submit_failure_returns_to_form_witness :
    (handleSubmit
        { currentStep := Phase.form,
          symptoms := [("frequent_urination", 60), ("excessive_thirst", 0),
            ("unexplained_weight_loss", 0), ("fatigue", 0),
            ("blurred_vision", 0), ("slow_healing", 0)],
          prediction := none, loading := false }
        (FacadeOutcome.failure FacadeError.networkError)).state.symptoms
      = [("frequent_urination", 60), ("excessive_thirst", 0),
         ("unexplained_weight_loss", 0), ("fatigue", 0),
         ("blurred_vision", 0), ("slow_healing", 0)] ∧
    (handleSubmit
        { currentStep := Phase.form,
          symptoms := [("frequent_urination", 60), ("excessive_thirst", 0),
            ("unexplained_weight_loss", 0), ("fatigue", 0),
            ("blurred_vision", 0), ("slow_healing", 0)],
          prediction := none, loading := false }
        (FacadeOutcome.failure FacadeError.networkError)).errorToasts
      = 1 := by
  have h := submit_failure_returns_to_form
    { currentStep := Phase.form,
      symptoms := [("frequent_urination", 60), ("excessive_thirst", 0),
        ("unexplained_weight_loss", 0), ("fatigue", 0),
        ("blurred_vision", 0), ("slow_healing", 0)],
      prediction := none, loading := false }
    FacadeError.networkError (by decide)
  exact ⟨h.2.2.1, h.2.2.2⟩

/-- Claim C7 counterexample: in a submitting state (`currentStep =
loading`, `loading = true`) with a nonzero answer, invoking the submit
handler directly does issue another network call — it does not fail
with an `InvalidState` error, because the handler checks only the
total score, never the phase. -/
theorem submit_whileSubmitting_issues_call :
    (handleSubmit
        { currentStep := Phase.loading,
          symptoms := [("frequent_urination", 60), ("excessive_thirst", 0),
            ("unexplained_weight_loss", 0), ("fatigue", 0),
            ("blurred_vision", 0), ("slow_healing", 0)],
          prediction := none, loading := true }
        (FacadeOutcome.failure FacadeError.networkError)).networkCalled
      = true := by
  decide

/-- Claim C7 amended: while a submission is in flight (`loading = true`
and `currentStep = loading`), the submit button is disabled and the
form (with its submit button) is not rendered, so no second submission
can be triggered through the UI — this, not an `InvalidState` failure,
is the mutual-exclusion mechanism; the handler itself has no phase
guard, and a direct second call with a nonzero answer issues another
network call. -/
theorem submitting_mutualExclusion_ui (st : AssessmentState)
    (outcome : FacadeOutcome) (hload : st.loading = true)
    (hstep : st.currentStep = Phase.loading) :
    submitButtonDisabled st = true ∧
    formRendered st = false ∧
    (sumValues st.symptoms ≠ 0 →
      (handleSubmit st outcome).networkCalled = true) := by
  refine ⟨by simp [submitButtonDisabled, hload],
    by simp [formRendered, hstep], ?_⟩
  intro hnz
  cases outcome <;> simp [handleSubmit, hnz]

/-- Claim C7 amended witness: the in-flight diabetes session has its
submit button disabled and its form unrendered, while a direct call of
the handler still issues a network call. -/
theorem submitting_mutualExclusion_ui_witness :
    submitButtonDisabled
        { currentStep := Phase.loading,
          symptoms := [("frequent_urination", 50)],
          prediction := none, loading := true } = true ∧
    formRendered
        { currentStep := Phase.loading,
          symptoms := [("frequent_urination", 50)],
          prediction := none, loading := true } = false ∧
    (handleSubmit
        { currentStep := Phase.loading,
          symptoms := [("frequent_urination", 50)],
          prediction := none, loading := true }
        (FacadeOutcome.success
          { prediction_percentage := 40, risk_factors := [] })).networkCalled
      = true := by
  have h := submitting_mutualExclusion_ui
    { currentStep := Phase.loading,
      symptoms := [("frequent_urination", 50)],
      prediction := none, loading := true }
    (FacadeOutcome.success { prediction_percentage := 40, risk_factors := [] })
    rfl rfl
  exact ⟨h.1, h.2.1, h.2.2 (by decide)⟩

/-- Claim C8: for every percentage in `[0,100]`, the result screen's
`getRiskLevel` implements the spec's tier table (Low below 25, Moderate
from 25 below 50, High from 50 below 75, Very High from 75), and the
history screen's `getRiskColor` draws its boundaries at exactly the
same points: its color string is precisely the `color` and `bgColor`
`getRiskLevel` assigns to the same percentage. -/
theorem riskTier_consistent (p : Int) (h0 : 0 ≤ p) (h1 : p ≤ 100) :
    (getRiskLevel p).level = tierName (specTier p) ∧
    getRiskColor p = (getRiskLevel p).color ++ " " ++ (getRiskLevel p).bgColor := by
  constructor
  · unfold getRiskLevel specTier tierName
    split_ifs <;> first | rfl | omega
  · unfold getRiskLevel getRiskColor
    split_ifs <;> rfl

/-- Claim C8 witness: both screens classify 50 as High with matching
colors. -/
theorem riskTier_consistent_witness :
    (getRiskLevel 50).level = tierName (specTier 50) ∧
    getRiskColor 50 = (getRiskLevel 50).color ++ " " ++ (getRiskLevel 50).bgColor :=
  riskTier_consistent 50 (by decide) (by decide)

/-- Helper: rewriting one key of a string-keyed object does not change
the value read at any other key. -/
theorem getAssoc_map_update_ne (xs : List (String × Int)) (k k' : String)
    (v : Int) (h : k' ≠ k) :
    getAssoc (xs.map fun kv => if kv.1 = k then (k, v) else kv) k'
      = getAssoc xs k' := by
  induction xs with
  | nil => rfl
  | cons kv rest ih =>
      by_cases hk : kv.1 = k
      · subst hk
        have hne : ¬(kv.1 = k') := fun hh => h hh.symm
        simp [getAssoc, hne, ih]
      · simp only [List.map_cons, if_neg hk, getAssoc]
        by_cases hk' : kv.1 = k'
        · rw [if_pos hk', if_pos hk']
        · rw [if_neg hk', if_neg hk']
          exact ih

/-- Helper: appending a fresh key to a string-keyed object does not
change the value read at any other key. -/
theorem getAssoc_append_ne (xs : List (String × Int)) (k k' : String)
    (v : Int) (h : k' ≠ k) :
    getAssoc (xs ++ [(k, v)]) k' = getAssoc xs k' := by
  induction xs with
  | nil =>
      simp only [List.nil_append, getAssoc]
      rw [if_neg (fun hh => h hh.symm)]
  | cons kv rest ih =>
      simp only [List.cons_append, getAssoc]
      by_cases hk' : kv.1 = k'
      · rw [if_pos hk', if_pos hk']
      · rw [if_neg hk', if_neg hk']
        exact ih

/-- Helper: after `{ ...prev, [key]: value }`, reading `key` yields
`value`. -/
theorem getAssoc_setAssoc_self (xs : List (String × Int)) (k : String)
    (v : Int) : getAssoc (setAssoc xs k v) k = some v := by
  have hmap : ∀ ys : List (String × Int),
      getAssoc (ys.map fun kv => if kv.1 = k then (k, v) else kv) k
        = some v ∨
      getAssoc (ys.map fun kv => if kv.1 = k then (k, v) else kv) k
        = none ∧ (ys.any fun kv => kv.1 = k) = false := by
    intro ys
    induction ys with
    | nil => exact Or.inr ⟨rfl, rfl⟩
    | cons kv rest ih =>
        by_cases hk : kv.1 = k
        · subst hk
          left
          simp [getAssoc]
        · rcases ih with h1 | ⟨h1, h2⟩
          · left
            simpa [getAssoc, hk] using h1
          · right
            refine ⟨by simpa [getAssoc, hk] using h1, ?_⟩
            simp [hk, h2]
  have happ : ∀ ys : List (String × Int),
      (ys.any fun kv => kv.1 = k) = false →
      getAssoc (ys ++ [(k, v)]) k = some v := by
    intro ys
    induction ys with
    | nil =>
        intro _
        simp [getAssoc]
    | cons kv rest ih =>
        intro hys
        simp only [List.any_cons, Bool.or_eq_false_iff,
          decide_eq_false_iff_not] at hys
        simp only [List.cons_append, getAssoc, if_neg hys.1]
        exact ih (by simp [hys.2])
  unfold setAssoc
  by_cases hany : (xs.any fun kv => kv.1 = k) = true
  · rw [if_pos hany]
    rcases hmap xs with h1 | ⟨_, h2⟩
    · exact h1
    · rw [h2] at hany
      exact absurd hany (by simp)
  · rw [if_neg hany]
    refine happ xs ?_
    cases hb : (xs.any fun kv => kv.1 = k) with
    | false => rfl
    | true => exact absurd hb hany

/-- Helper: after `{ ...prev, [key]: value }`, every other key reads as
before. -/
theorem getAssoc_setAssoc_ne (xs : List (String × Int)) (k k' : String)
    (v : Int) (h : k' ≠ k) :
    getAssoc (setAssoc xs k v) k' = getAssoc xs k' := by
  unfold setAssoc
  by_cases hany : xs.any (fun kv => kv.1 = k)
  · rw [if_pos hany]
    exact getAssoc_map_update_ne xs k k' v h
  · rw [if_neg hany]
    exact getAssoc_append_ne xs k k' v h

/-- Claim C10 counterexample: on a freshly seeded diabetes form,
`handleSymptomChange "frequent_urination" 150` neither rejects the
out-of-range value (the answers change) nor clamps it to the slider
bound 100: the stored answer becomes 150, which exceeds `sliderMax`. -/
theorem setAnswer_overrange_stored :
    (handleSymptomChange
        { currentStep := Phase.form,
          symptoms := [("frequent_urination", 0), ("excessive_thirst", 0),
            ("unexplained_weight_loss", 0), ("fatigue", 0),
            ("blurred_vision", 0), ("slow_healing", 0)],
          prediction := none, loading := false }
        "frequent_urination" 150).symptoms
      ≠ [("frequent_urination", 0), ("excessive_thirst", 0),
         ("unexplained_weight_loss", 0), ("fatigue", 0),
         ("blurred_vision", 0), ("slow_healing", 0)] ∧
    getAssoc
      (handleSymptomChange
        { currentStep := Phase.form,
          symptoms := [("frequent_urination", 0), ("excessive_thirst", 0),
            ("unexplained_weight_loss", 0), ("fatigue", 0),
            ("blurred_vision", 0), ("slow_healing", 0)],
          prediction := none, loading := false }
        "frequent_urination" 150).symptoms "frequent_urination"
      = some 150 ∧
    sliderMax < 150 := by
  refine ⟨?_, ?_, ?_⟩ <;> decide

/-- Claim C10 amended: `handleSymptomChange` performs no key or range
validation of its own — it stores the given value unconditionally
(updating the key in place if present, appending it otherwise), so the
stored answer equals exactly the value delivered by the input control;
the `[0,100]` range is only the `min`/`max` configuration of the
slider, and every other answer and every other state field is left
unchanged. -/
theorem setAnswer_stores_unconditionally (st : AssessmentState)
    (key : String) (value : Int) :
    getAssoc (handleSymptomChange st key value).symptoms key = some value ∧
    (∀ k, k ≠ key →
      getAssoc (handleSymptomChange st key value).symptoms k
        = getAssoc st.symptoms k) ∧
    (handleSymptomChange st key value).currentStep = st.currentStep ∧
    (handleSymptomChange st key value).prediction = st.prediction ∧
    (handleSymptomChange st key value).loading = st.loading ∧
    sliderMin = 0 ∧ sliderMax = 100 := by
  refine ⟨getAssoc_setAssoc_self st.symptoms key value, ?_, rfl, rfl, rfl,
    rfl, rfl⟩
  intro k hk
  exact getAssoc_setAssoc_ne st.symptoms key k value hk

/-- Claim C10 amended witness: storing 150 for `frequent_urination` on
a seeded form yields exactly 150 at that key and leaves `fatigue`
unchanged. -/
theorem setAnswer_stores_unconditionally_witness :
    getAssoc
      (handleSymptomChange
        { currentStep := Phase.form,
          symptoms := [("frequent_urination", 0), ("fatigue", 30)],
          prediction := none, loading := false }
        "frequent_urination" 150).symptoms "frequent_urination"
      = some 150 ∧
    getAssoc
      (handleSymptomChange
        { currentStep := Phase.form,
          symptoms := [("frequent_urination", 0), ("fatigue", 30)],
          prediction := none, loading := false }
        "frequent_urination" 150).symptoms "fatigue"
      = some 30 := by
  have h := setAnswer_stores_unconditionally
    { currentStep := Phase.form,
      symptoms := [("frequent_urination", 0), ("fatigue", 30)],
      prediction := none, loading := false }
    "frequent_urination" 150
  refine ⟨h.1, ?_⟩
  rw [h.2.1 "fatigue" (by decide)]
  decide

end HealiFy
